import Mathlib

/-!
Shallow embedding of the authentication/authorization core of the
Collab-Docs repository (NestJS), centred on
`src/src/auth/auth.service.ts` (the in-memory `AuthService`), its entity
`src/src/auth/entities/user.entity.ts` and DTOs
`src/src/auth/dto/auth.dto.ts`.

Modelling conventions:
- the mutable `this.users : User[]` array is threaded explicitly as a
  `List User`; each service method becomes a pure function returning a
  pair `(result, new store)`;
- thrown Nest exceptions (`ConflictException`, `UnauthorizedException`,
  `BadRequestException`, `ForbiddenException`, `NotFoundException`)
  become an `Except AuthError` result, `AuthError` recording the
  exception class (the error kind) and its message;
- `Date.now()` and the ambient clock become an explicit `now : Nat`
  parameter (milliseconds);
- the bcrypt library and the JWT service are external to the
  repository; they are modelled from the spec (see the doc comments on
  `bcryptHash` and `signToken`).
-/

deriving instance DecidableEq for Except

namespace CollabAuth

/-- The closed role enumeration `UserRole` of
`src/src/auth/entities/user.entity.ts`: `owner`, `collaborator`,
`viewer` (string-valued enum in the source). -/
inductive UserRole where
  | owner
  | collaborator
  | viewer
deriving DecidableEq, Repr

/-- The string value of a role, as in the TypeScript enum
(`OWNER = 'owner'`, ...). -/
def UserRole.toRoleString : UserRole → String
  | .owner => "owner"
  | .collaborator => "collaborator"
  | .viewer => "viewer"

/-- Modelled from the spec: the Credential Hasher (the external bcrypt
library, not part of this repository). `hash` is salted and
self-contained; the hash is represented abstractly as the salt together
with a digest that, per the spec's collision-free idealization,
determines the plaintext (`verify(p, hash(p))` true for all `p`,
`verify(p, hash(q))` false for `p ≠ q`). -/
structure CredentialHash where
  salt : Nat
  digest : String
deriving DecidableEq, Repr

/-- Modelled from the spec: `bcrypt.hash(plaintext, saltRounds)`,
idealized as recording the salt and a plaintext-determining digest. -/
def bcryptHash (salt : Nat) (plaintext : String) : CredentialHash :=
  { salt := salt, digest := plaintext }

/-- Modelled from the spec: `bcrypt.compare(plaintext, hash)`; a total
Boolean function (never throws on mismatch — returns false). -/
def bcryptCompare (plaintext : String) (h : CredentialHash) : Bool :=
  h.digest == plaintext

/-- The `User` entity of `src/src/auth/entities/user.entity.ts`.
`password` stores the bcrypt credential hash; `createdAt`/`updatedAt`
are millisecond timestamps. -/
structure User where
  id : String
  email : String
  password : CredentialHash
  firstName : String
  lastName : String
  role : UserRole
  createdAt : Nat
  updatedAt : Nat
deriving DecidableEq, Repr

/-- `RegisterDto` of `src/src/auth/dto/auth.dto.ts`. -/
structure RegisterDto where
  email : String
  password : String
  firstName : String
  lastName : String
deriving DecidableEq, Repr

/-- `LoginDto` of `src/src/auth/dto/auth.dto.ts`. -/
structure LoginDto where
  email : String
  password : String
deriving DecidableEq, Repr

/-- `JwtPayload` of `src/src/auth/dto/auth.dto.ts`: `sub` (user id),
`email`, `role`. -/
structure JwtPayload where
  sub : String
  email : String
  role : UserRole
deriving DecidableEq, Repr

/-- Modelled from the spec: a signed session token minted by the
external `JwtService` (`@nestjs/jwt`, not part of this repository).
Carries the claims, the fixed validity window `issuedAt`/`expiresAt`,
and an idealized unforgeable signature recorded as the signing key. -/
structure Token where
  payload : JwtPayload
  issuedAt : Nat
  expiresAt : Nat
  sig : Nat
deriving DecidableEq, Repr

/-- The error kinds of the spec's error taxonomy (the Nest exception
classes used by the source). -/
inductive ErrorKind where
  | conflict
  | unauthorized
  | badRequest
  | forbidden
  | notFound
deriving DecidableEq, Repr

/-- A thrown Nest exception: its class (kind) and message. -/
structure AuthError where
  kind : ErrorKind
  message : String
deriving DecidableEq, Repr

/-- The password-stripped user record returned by register/login/
profile/getAllUsers (`const \x7b password, ...userWithoutPassword \x7d = user`). -/
structure PublicUser where
  id : String
  email : String
  firstName : String
  lastName : String
  role : UserRole
  createdAt : Nat
  updatedAt : Nat
deriving DecidableEq, Repr

/-- The destructuring `const \x7b password, ...userWithoutPassword \x7d = user`
used by `register`, `login` and `getAllUsers`. -/
def stripPassword (u : User) : PublicUser :=
  { id := u.id, email := u.email, firstName := u.firstName,
    lastName := u.lastName, role := u.role,
    createdAt := u.createdAt, updatedAt := u.updatedAt }

/-- `AuthResponseDto` of `src/src/auth/dto/auth.dto.ts`: user without
password, plus the token. -/
structure AuthResponse where
  user : PublicUser
  token : Token
deriving DecidableEq, Repr

/-- Modelled from the spec: `JwtService.sign` — `issue(account)` sets
`expiresAt = issuedAt + fixedTTL` and signs with the process-wide
secret. -/
def signToken (secret : Nat) (payload : JwtPayload) (now ttl : Nat) : Token :=
  { payload := payload, issuedAt := now, expiresAt := now + ttl, sig := secret }

/-- `AuthService.generateToken` (`src/src/auth/auth.service.ts`): builds
the `JwtPayload` from the user and signs it. -/
def generateToken (secret : Nat) (u : User) (now ttl : Nat) : Token :=
  signToken secret { sub := u.id, email := u.email, role := u.role } now ttl

/-- Modelled from the spec: token verification (`verify(token)` of the
Token Issuer/Verifier; the JWT strategy file is not in the sources) —
checks signature validity and `now < expiresAt`; all failures collapse
to one `Unauthorized` error. -/
def verifyToken (secret : Nat) (tok : Token) (now : Nat) : Except AuthError JwtPayload :=
  if tok.sig == secret && decide (now < tok.expiresAt) then
    .ok tok.payload
  else
    .error { kind := .unauthorized, message := "Invalid or expired token" }

/-- The user record constructed by `AuthService.register`:
`id = Date.now().toString()`, hashed password, default role `VIEWER`,
`createdAt`/`updatedAt` = now. -/
def mkNewUser (dto : RegisterDto) (now salt : Nat) : User :=
  { id := toString now, email := dto.email,
    password := bcryptHash salt dto.password,
    firstName := dto.firstName, lastName := dto.lastName,
    role := .viewer, createdAt := now, updatedAt := now }

/-- `AuthService.register` (`src/src/auth/auth.service.ts`): rejects a
duplicate email with `ConflictException`, otherwise pushes the new user
and returns the stripped user plus a token. -/
def register (users : List User) (dto : RegisterDto) (now salt secret ttl : Nat) :
    Except AuthError AuthResponse × List User :=
  match users.find? (fun u => u.email == dto.email) with
  | some _ =>
      (.error { kind := .conflict, message := "User with this email already exists" }, users)
  | none =>
      let nu := mkNewUser dto now salt
      (.ok { user := stripPassword nu, token := generateToken secret nu now ttl },
       users ++ [nu])

/-- `AuthService.validateUser`: find by email, then bcrypt-compare. -/
def validateUser (users : List User) (email password : String) : Option User :=
  match users.find? (fun u => u.email == email) with
  | some u => if bcryptCompare password u.password then some u else none
  | none => none

/-- `AuthService.login`: on `validateUser` failure throws
`UnauthorizedException('Invalid credentials')`; never writes to the
store. -/
def login (users : List User) (dto : LoginDto) (now secret ttl : Nat) :
    Except AuthError AuthResponse × List User :=
  (match validateUser users dto.email dto.password with
   | none => .error { kind := .unauthorized, message := "Invalid credentials" }
   | some u => .ok { user := stripPassword u, token := generateToken secret u now ttl },
   users)

/-- `AuthService.findUserById`: `BadRequestException` on an empty id
(the only falsy string), otherwise `find` by id (`null` when absent). -/
def findUserById (users : List User) (id : String) :
    Except AuthError (Option User) × List User :=
  (if id == "" then .error { kind := .badRequest, message := "User ID is required" }
   else .ok (users.find? (fun u => u.id == id)),
   users)

/-- The membership test `Object.values(UserRole).includes(newRole)`: the
raw role string is one of `"owner"`, `"collaborator"`, `"viewer"`.
Returns the parsed role. -/
def parseRole (s : String) : Option UserRole :=
  if s == "owner" then some .owner
  else if s == "collaborator" then some .collaborator
  else if s == "viewer" then some .viewer
  else none

/-- The find-index-then-mutate core of `AuthService.updateUserRole`:
locates the first user with the given id, sets `role` and `updatedAt`
in place, and returns the mutated record together with the mutated
store (`none` when `findIndex` returns -1). -/
def updateAt (users : List User) (userId : String) (r : UserRole) (now : Nat) :
    Option (User × List User) :=
  match users with
  | [] => none
  | u :: rest =>
      if u.id == userId then
        let u2 := { u with role := r, updatedAt := now }
        some (u2, u2 :: rest)
      else
        match updateAt rest userId r now with
        | none => none
        | some (v, rest2) => some (v, u :: rest2)

/-- `AuthService.updateUserRole` (`src/src/auth/auth.service.ts`):
`BadRequestException` on empty id, then on a role value outside the
closed enum, then `UnauthorizedException('User not found')` when no
user has the id; otherwise mutates `role` and `updatedAt` and returns
the stored user record (password included). -/
def updateUserRole (users : List User) (userId newRole : String) (now : Nat) :
    Except AuthError User × List User :=
  if userId == "" then
    (.error { kind := .badRequest, message := "User ID is required" }, users)
  else
    match parseRole newRole with
    | none => (.error { kind := .badRequest, message := "Invalid role specified" }, users)
    | some r =>
        match updateAt users userId r now with
        | none => (.error { kind := .unauthorized, message := "User not found" }, users)
        | some (v, users2) => (.ok v, users2)

/-- `AuthService.getAllUsers`: strips passwords; read-only. -/
def getAllUsers (users : List User) : List PublicUser :=
  users.map stripPassword

/-- Modelled from the spec: the Access Decision Engine (the RolesGuard
file `src/auth/guards/roles.guard.ts` is not among the sources; only
its callers and the `Roles` decorator are). Allow iff the
required-role set is empty or the identity's role is a member. -/
def authorize (role : UserRole) (requiredRoles : List UserRole) : Bool :=
  requiredRoles.isEmpty || requiredRoles.contains role

/-- Modelled from the spec: a deny from the Access Decision Engine is
surfaced as `ForbiddenException` (`Access denied`), never as
`Unauthorized`. -/
def authorizeResult (role : UserRole) (requiredRoles : List UserRole) :
    Except AuthError Unit :=
  if authorize role requiredRoles then .ok ()
  else .error { kind := .forbidden, message := "Access denied" }

/-- One public operation of the service, with its ambient inputs
(clock, salt) made explicit. -/
inductive Op where
  | register (dto : RegisterDto) (now salt : Nat)
  | login (dto : LoginDto) (now : Nat)
  | updateRole (userId newRole : String) (now : Nat)
  | findById (id : String)
  | listAll
deriving Repr

/-- The store component of one operation's effect. -/
def stepStore (secret ttl : Nat) (users : List User) : Op → List User
  | .register dto now salt => (register users dto now salt secret ttl).2
  | .login dto now => (login users dto now secret ttl).2
  | .updateRole userId newRole now => (updateUserRole users userId newRole now).2
  | .findById i => (findUserById users i).2
  | .listAll => users

/-- Run a sequence of operations from the empty store. -/
def runOps (secret ttl : Nat) (ops : List Op) : List User :=
  ops.foldl (stepStore secret ttl) []

/-- The kind of the error, when the result is an error. -/
def errKind {α : Type} : Except AuthError α → Option ErrorKind
  | .error e => some e.kind
  | .ok _ => none

/-- Sample register request used by concrete evaluations. -/
def dtoA : RegisterDto :=
  { email := "a@x.com", password := "secret1", firstName := "A", lastName := "B" }

/-- Second sample register request with a distinct email. -/
def dtoB : RegisterDto :=
  { email := "b@x.com", password := "secret2", firstName := "C", lastName := "D" }

/-- Sample stored user used by concrete evaluations. -/
def sampleUser1 : User :=
  { id := "1", email := "a@x.com", password := bcryptHash 0 "secret1",
    firstName := "A", lastName := "B", role := .viewer,
    createdAt := 0, updatedAt := 0 }

/-- The same sample user with a different stored credential hash. -/
def sampleUser2 : User := { sampleUser1 with password := bcryptHash 0 "secret2" }

lemma find?_email_eq_none {users : List User} {email : String}
    (h : ∀ u ∈ users, u.email ≠ email) :
    users.find? (fun u => u.email == email) = none :=
  List.find?_eq_none.mpr (fun x hx => by simpa using h x hx)

lemma updateAt_emails {users : List User} {userId : String} {r : UserRole} {now : Nat}
    {v : User} {users2 : List User}
    (h : updateAt users userId r now = some (v, users2)) :
    users2.map User.email = users.map User.email := by
  induction users generalizing users2 with
  | nil => simp [updateAt] at h
  | cons u rest ih =>
      simp only [updateAt] at h
      by_cases hid : (u.id == userId) = true
      · rw [if_pos hid] at h
        cases h
        simp
      · rw [if_neg hid] at h
        cases hrec : updateAt rest userId r now with
        | none => rw [hrec] at h; cases h
        | some p =>
            rcases p with ⟨w, rest2⟩
            rw [hrec] at h
            cases h
            simp [ih hrec]

lemma updateAt_none {users : List User} {userId : String} {r : UserRole} {now : Nat}
    (h : ∀ u ∈ users, u.id ≠ userId) :
    updateAt users userId r now = none := by
  induction users with
  | nil => rfl
  | cons u rest ih =>
      have hu : ¬ (u.id == userId) = true := by
        simpa using h u (by simp)
      simp only [updateAt, if_neg hu]
      rw [ih (fun v hv => h v (by simp [hv]))]

lemma updateAt_some_of_mem {users : List User} {userId : String} {r : UserRole} {now : Nat}
    (h : ∃ u ∈ users, u.id = userId) :
    ∃ v users2, updateAt users userId r now = some (v, users2) := by
  induction users with
  | nil => simp at h
  | cons u rest ih =>
      by_cases hid : (u.id == userId) = true
      · refine ⟨{ u with role := r, updatedAt := now },
          { u with role := r, updatedAt := now } :: rest, ?_⟩
        simp only [updateAt, if_pos hid]
      · have hmem : ∃ w ∈ rest, w.id = userId := by
          rcases h with ⟨w, hw, hwid⟩
          rcases List.mem_cons.mp hw with h1 | h1
          · exact absurd (by simp [← h1, hwid]) hid
          · exact ⟨w, h1, hwid⟩
        rcases ih hmem with ⟨v, users2, hv⟩
        refine ⟨v, u :: users2, ?_⟩
        simp only [updateAt, if_neg hid, hv]

lemma updateAt_spec {users : List User} {userId : String} {r : UserRole} {now : Nat}
    {v : User} {users2 : List User}
    (h : updateAt users userId r now = some (v, users2)) :
    ∃ orig ∈ users, orig.id = userId ∧ v = { orig with role := r, updatedAt := now } := by
  induction users generalizing users2 with
  | nil => simp [updateAt] at h
  | cons u rest ih =>
      simp only [updateAt] at h
      by_cases hid : (u.id == userId) = true
      · rw [if_pos hid] at h
        cases h
        exact ⟨u, by simp, by simpa using hid, rfl⟩
      · rw [if_neg hid] at h
        cases hrec : updateAt rest userId r now with
        | none => rw [hrec] at h; cases h
        | some p =>
            rcases p with ⟨w, rest2⟩
            rw [hrec] at h
            cases h
            rcases ih hrec with ⟨orig, ho, hoid, hval⟩
            exact ⟨orig, by simp [ho], hoid, hval⟩

/-- C1: for every store state and registration request, if no stored
account has the request's email then `register` succeeds, appending a
new account whose role is `Viewer` (also the role in the response); if
some stored account already has that email, `register` fails with
`Conflict` and the store is unchanged. -/
theorem register_viewer_or_conflict (users : List User) (dto : RegisterDto)
    (now salt secret ttl : Nat) :
    ((∀ u ∈ users, u.email ≠ dto.email) →
      register users dto now salt secret ttl =
        (.ok { user := stripPassword (mkNewUser dto now salt),
               token := generateToken secret (mkNewUser dto now salt) now ttl },
         users ++ [mkNewUser dto now salt]) ∧
      (mkNewUser dto now salt).role = .viewer ∧
      (stripPassword (mkNewUser dto now salt)).role = .viewer) ∧
    ((∃ u ∈ users, u.email = dto.email) →
      register users dto now salt secret ttl =
        (.error { kind := .conflict, message := "User with this email already exists" },
         users)) := by
  constructor
  · intro h
    rw [register, find?_email_eq_none h]
    exact ⟨rfl, rfl, rfl⟩
  · rintro ⟨u, hu, he⟩
    have hsome : (users.find? (fun v => v.email == dto.email)).isSome :=
      List.find?_isSome.mpr ⟨u, hu, by simp [he]⟩
    rcases Option.isSome_iff_exists.mp hsome with ⟨v, hv⟩
    rw [register, hv]

/-- C1 witness: on the empty store the sample registration succeeds
with role `Viewer`, and registering the same email again on the
resulting store fails with `Conflict`. -/
theorem register_viewer_or_conflict_witness :
    (register [] dtoA 5 0 0 0 =
      (.ok { user := stripPassword (mkNewUser dtoA 5 0),
             token := generateToken 0 (mkNewUser dtoA 5 0) 5 0 },
       [mkNewUser dtoA 5 0]) ∧
     (mkNewUser dtoA 5 0).role = .viewer ∧
     (stripPassword (mkNewUser dtoA 5 0)).role = .viewer) ∧
    (register [mkNewUser dtoA 5 0] dtoA 6 0 0 0 =
      (.error { kind := .conflict, message := "User with this email already exists" },
       [mkNewUser dtoA 5 0])) := by
  refine ⟨?_, ?_⟩
  · have h := (register_viewer_or_conflict [] dtoA 5 0 0 0).1 (by simp)
    simpa using h
  · exact (register_viewer_or_conflict [mkNewUser dtoA 5 0] dtoA 6 0 0 0).2
      ⟨mkNewUser dtoA 5 0, by simp, rfl⟩

/-- C2: for every store state, login with an unknown email and login
with a stored email whose bcrypt comparison fails both return the
identical error — kind `Unauthorized`, message `Invalid credentials` —
and leave the store unchanged. -/
theorem login_uniform_unauthorized (users : List User) (dto : LoginDto)
    (now secret ttl : Nat) :
    ((∀ u ∈ users, u.email ≠ dto.email) →
      login users dto now secret ttl =
        (.error { kind := .unauthorized, message := "Invalid credentials" }, users)) ∧
    (∀ u, users.find? (fun v => v.email == dto.email) = some u →
      bcryptCompare dto.password u.password = false →
      login users dto now secret ttl =
        (.error { kind := .unauthorized, message := "Invalid credentials" }, users)) := by
  constructor
  · intro h
    rw [login, validateUser, find?_email_eq_none h]
  · intro u hu hcmp
    simp [login, validateUser, hu, hcmp]

/-- C2 witness: concrete store with one account; login with an unknown
email and login with the right email but wrong password both return
`Unauthorized` with message `Invalid credentials` and the unchanged
store. -/
theorem login_uniform_unauthorized_witness :
    (login [sampleUser1] { email := "z@x.com", password := "secret1" } 9 0 0 =
      (.error { kind := .unauthorized, message := "Invalid credentials" }, [sampleUser1])) ∧
    (login [sampleUser1] { email := "a@x.com", password := "wrongpw" } 9 0 0 =
      (.error { kind := .unauthorized, message := "Invalid credentials" }, [sampleUser1])) := by
  constructor
  · exact (login_uniform_unauthorized [sampleUser1]
      { email := "z@x.com", password := "secret1" } 9 0 0).1 (by decide)
  · exact (login_uniform_unauthorized [sampleUser1]
      { email := "a@x.com", password := "wrongpw" } 9 0 0).2 sampleUser1 (by decide) (by decide)

lemma updateAt_find? {users : List User} {userId : String} {r : UserRole} {now : Nat}
    {v : User} {users2 : List User} {orig : User}
    (h : updateAt users userId r now = some (v, users2))
    (hf : users.find? (fun u => u.id == userId) = some orig) :
    v = { orig with role := r, updatedAt := now } := by
  induction users generalizing users2 with
  | nil => simp [updateAt] at h
  | cons u rest ih =>
      simp only [updateAt] at h
      by_cases hid : (u.id == userId) = true
      · rw [if_pos hid] at h
        rw [List.find?_cons_of_pos (p := fun w => w.id == userId) rest hid] at hf
        cases hf
        cases h
        rfl
      · rw [if_neg hid] at h
        rw [List.find?_cons_of_neg (p := fun w => w.id == userId) rest hid] at hf
        cases hrec : updateAt rest userId r now with
        | none => rw [hrec] at h; cases h
        | some p =>
            rcases p with ⟨w, rest2⟩
            rw [hrec] at h
            cases h
            exact ih hrec hf

/-- C3 (amended): for every store, nonempty target id, and role string
in the closed set, if some stored account has the target id then
`updateUserRole` succeeds; and every success value is the stored
(first-matching) account updated in place — `role` set, `updatedAt`
refreshed, every other field including the credential hash (`password`)
retained, not stripped. -/
theorem updateUserRole_ok_keeps_password (users : List User) (userId newRole : String)
    (now : Nat) :
    ((userId ≠ "") → (∃ r, parseRole newRole = some r) → (∃ u ∈ users, u.id = userId) →
      ∃ v users2, updateUserRole users userId newRole now = (.ok v, users2)) ∧
    (∀ v users2 r orig, updateUserRole users userId newRole now = (.ok v, users2) →
      parseRole newRole = some r →
      users.find? (fun u => u.id == userId) = some orig →
      v = { orig with role := r, updatedAt := now } ∧ v.password = orig.password) := by
  constructor
  · rintro hne ⟨r, hr⟩ hmem
    have hid : ¬ (userId == "") = true := by simpa using hne
    rcases @updateAt_some_of_mem users userId r now hmem with ⟨v, users2, hv⟩
    exact ⟨v, users2, by simp [updateUserRole, hid, hr, hv]⟩
  · intro v users2 r orig h hr hf
    rw [updateUserRole] at h
    by_cases hid : (userId == "") = true
    · rw [if_pos hid] at h
      simp at h
    · rw [if_neg hid, hr] at h
      simp only [] at h
      cases hu : updateAt users userId r now with
      | none => rw [hu] at h; simp at h
      | some p =>
          rcases p with ⟨w, us2⟩
          rw [hu] at h
          simp only [Prod.mk.injEq, Except.ok.injEq] at h
          rcases h with ⟨hv, _⟩
          subst hv
          have := updateAt_find? hu hf
          subst this
          exact ⟨rfl, rfl⟩

/-- C3 witness: on the singleton store the role update to `owner`
succeeds, and the success value equals the stored account with role and
`updatedAt` replaced, its credential hash retained. -/
theorem updateUserRole_ok_keeps_password_witness :
    ((updateUserRole [sampleUser1] "1" "owner" 7).1.isOk = true) ∧
    (({ sampleUser1 with role := UserRole.owner, updatedAt := 7 } : User) =
      { sampleUser1 with role := UserRole.owner, updatedAt := 7 } ∧
     ({ sampleUser1 with role := UserRole.owner, updatedAt := 7 } : User).password =
      sampleUser1.password) := by
  constructor
  · obtain ⟨v, users2, h⟩ := (updateUserRole_ok_keeps_password [sampleUser1] "1" "owner" 7).1
      (by decide) ⟨.owner, by decide⟩ ⟨sampleUser1, by simp, rfl⟩
    rw [h]
    rfl
  · exact (updateUserRole_ok_keeps_password [sampleUser1] "1" "owner" 7).2
      { sampleUser1 with role := UserRole.owner, updatedAt := 7 }
      [{ sampleUser1 with role := UserRole.owner, updatedAt := 7 }]
      UserRole.owner sampleUser1 (by decide) (by decide) (by decide)

/-- C3 counterexample: concretely, the success value of
`updateUserRole` carries the stored credential hash (the claim says the
returned account omits it): the returned record's `password` field is
the stored bcrypt hash, and the result changes when only that stored
hash changes. -/
theorem updateUserRole_password_not_stripped_cex :
    (updateUserRole [sampleUser1] "1" "owner" 7).1 =
      .ok { sampleUser1 with role := UserRole.owner, updatedAt := 7 } ∧
    ({ sampleUser1 with role := UserRole.owner, updatedAt := 7 } : User).password =
      bcryptHash 0 "secret1" ∧
    (updateUserRole [sampleUser1] "1" "owner" 7).1 ≠
      (updateUserRole [sampleUser2] "1" "owner" 7).1 := by
  refine ⟨by decide, by decide, by decide⟩

/-- C4 (amended): `updateUserRole` fails with `BadRequest` on an empty
target id (for every store, before any lookup), and with `BadRequest`
on a role string outside the closed set (for every store, before any
lookup); for a nonempty id, a valid role, and no stored account with
that id, it fails with kind `Unauthorized` and message
`User not found` (not with kind `NotFound`); in all three cases the
store is unchanged. -/
theorem updateUserRole_error_cases (users : List User) (userId newRole : String)
    (now : Nat) :
    (userId = "" →
      updateUserRole users userId newRole now =
        (.error { kind := .badRequest, message := "User ID is required" }, users)) ∧
    (userId ≠ "" → parseRole newRole = none →
      updateUserRole users userId newRole now =
        (.error { kind := .badRequest, message := "Invalid role specified" }, users)) ∧
    (userId ≠ "" → ∀ r, parseRole newRole = some r → (∀ u ∈ users, u.id ≠ userId) →
      updateUserRole users userId newRole now =
        (.error { kind := .unauthorized, message := "User not found" }, users)) := by
  refine ⟨?_, ?_, ?_⟩
  · intro h
    subst h
    rfl
  · intro hne hrole
    have hid : ¬ (userId == "") = true := by simpa using hne
    rw [updateUserRole, if_neg hid, hrole]
  · intro hne r hrole hids
    have hid : ¬ (userId == "") = true := by simpa using hne
    rw [updateUserRole, if_neg hid, hrole]
    simp only []
    rw [updateAt_none hids]

/-- C4 witness: concrete instances of the three failure cases on a
one-account store — empty id, role string outside the closed set, and
a well-formed id matching no account. -/
theorem updateUserRole_error_cases_witness :
    (updateUserRole [sampleUser1] "" "owner" 3 =
      (.error { kind := .badRequest, message := "User ID is required" }, [sampleUser1])) ∧
    (updateUserRole [sampleUser1] "1" "admin" 3 =
      (.error { kind := .badRequest, message := "Invalid role specified" }, [sampleUser1])) ∧
    (updateUserRole [sampleUser1] "2" "owner" 3 =
      (.error { kind := .unauthorized, message := "User not found" }, [sampleUser1])) := by
  refine ⟨(updateUserRole_error_cases [sampleUser1] "" "owner" 3).1 rfl,
         (updateUserRole_error_cases [sampleUser1] "1" "admin" 3).2.1 (by decide) (by decide),
         (updateUserRole_error_cases [sampleUser1] "2" "owner" 3).2.2 (by decide)
           UserRole.owner (by decide) ?_⟩
  intro u hu
  have : u = sampleUser1 := by simpa using hu
  subst this
  decide

/-- C4 counterexample: at a well-formed id with no matching account the
error kind produced by `updateUserRole` is `Unauthorized`, not
`NotFound` as the claim states. -/
theorem updateUserRole_notfound_is_unauthorized_cex :
    errKind (updateUserRole [] "u1" "owner" 3).1 = some ErrorKind.unauthorized ∧
    errKind (updateUserRole [] "u1" "owner" 3).1 ≠ some ErrorKind.notFound := by
  refine ⟨by decide, by decide⟩

/-- C10: failure atomicity — whenever `register`, `login`,
`findUserById` or `updateUserRole` returns an error, the store it
returns is exactly the store it was given (no account added, removed
or modified). -/
theorem error_results_leave_store_unchanged (users : List User) (rdto : RegisterDto)
    (ldto : LoginDto) (i userId newRole : String) (now salt secret ttl : Nat) :
    (∀ e, (register users rdto now salt secret ttl).1 = .error e →
      (register users rdto now salt secret ttl).2 = users) ∧
    (∀ e, (login users ldto now secret ttl).1 = .error e →
      (login users ldto now secret ttl).2 = users) ∧
    (∀ e, (findUserById users i).1 = .error e →
      (findUserById users i).2 = users) ∧
    (∀ e, (updateUserRole users userId newRole now).1 = .error e →
      (updateUserRole users userId newRole now).2 = users) := by
  refine ⟨?_, ?_, ?_, ?_⟩
  · intro e he
    rw [register] at he ⊢
    cases hf : users.find? (fun u => u.email == rdto.email) with
    | none => rw [hf] at he; simp at he
    | some u => rfl
  · intro e he
    rfl
  · intro e he
    rfl
  · intro e he
    rw [updateUserRole] at he ⊢
    by_cases hid : (userId == "") = true
    · rw [if_pos hid]
    · rw [if_neg hid] at he ⊢
      cases hr : parseRole newRole with
      | none => rfl
      | some r =>
          rw [hr] at he
          simp only [] at he
          simp only []
          cases hu : updateAt users userId r now with
          | none => rfl
          | some p =>
              rcases p with ⟨v, us2⟩
              rw [hu] at he
              simp at he

/-- C10 witness: each operation evaluated at a concrete erroring input
returns the store it was given. -/
theorem error_results_leave_store_unchanged_witness :
    ((register [sampleUser1] dtoA 3 0 0 0).2 = [sampleUser1]) ∧
    ((login [sampleUser1] { email := "a@x.com", password := "wrongpw" } 3 0 0).2 =
      [sampleUser1]) ∧
    ((findUserById [sampleUser1] "").2 = [sampleUser1]) ∧
    ((updateUserRole [sampleUser1] "2" "owner" 3).2 = [sampleUser1]) := by
  have h := error_results_leave_store_unchanged [sampleUser1] dtoA
    { email := "a@x.com", password := "wrongpw" } "" "2" "owner" 3 0 0 0
  exact ⟨h.1 { kind := .conflict, message := "User with this email already exists" } (by decide),
         h.2.1 { kind := .unauthorized, message := "Invalid credentials" } (by decide),
         h.2.2.1 { kind := .badRequest, message := "User ID is required" } (by decide),
         h.2.2.2 { kind := .unauthorized, message := "User not found" } (by decide)⟩

lemma stepStore_emails_nodup (secret ttl : Nat) (users : List User) (op : Op)
    (h : (users.map User.email).Nodup) :
    ((stepStore secret ttl users op).map User.email).Nodup := by
  cases op with
  | register dto now salt =>
      simp only [stepStore, register]
      cases hf : users.find? (fun u => u.email == dto.email) with
      | some u => exact h
      | none =>
          simp only [List.map_append, List.map_cons, List.map_nil]
          rw [List.nodup_append]
          refine ⟨h, by simp, ?_⟩
          intro x hx hx1
          have hxe : x = dto.email := by
            simpa [mkNewUser] using hx1
          subst hxe
          rcases List.mem_map.mp hx with ⟨u, hu, hue⟩
          have := List.find?_eq_none.mp hf u hu
          simp [hue] at this
  | login dto now => exact h
  | findById i => exact h
  | listAll => exact h
  | updateRole userId newRole now =>
      simp only [stepStore, updateUserRole]
      by_cases hid : (userId == "") = true
      · rw [if_pos hid]
        exact h
      · rw [if_neg hid]
        cases hr : parseRole newRole with
        | none => exact h
        | some r =>
            simp only []
            cases hu : updateAt users userId r now with
            | none => exact h
            | some p =>
                rcases p with ⟨v, us2⟩
                simpa [updateAt_emails hu] using h

/-- C5: starting from the empty store, after every sequence of
operations no two stored accounts share an email (the mapped email
list has no duplicate); moreover every operation other than `register`
leaves the stored email list unchanged. -/
theorem store_emails_unique (secret ttl : Nat) :
    (∀ ops : List Op, ((runOps secret ttl ops).map User.email).Nodup) ∧
    (∀ (users : List User) (op : Op),
      (∀ dto now salt, op ≠ .register dto now salt) →
      (stepStore secret ttl users op).map User.email = users.map User.email) := by
  constructor
  · intro ops
    rw [runOps]
    have key : ∀ users, (users.map User.email).Nodup →
        ((ops.foldl (stepStore secret ttl) users).map User.email).Nodup := by
      induction ops with
      | nil => intro users h; simpa using h
      | cons op rest ih =>
          intro users h
          exact ih _ (stepStore_emails_nodup secret ttl users op h)
    exact key [] (by simp)
  · intro users op hop
    cases op with
    | register dto now salt => exact absurd rfl (hop dto now salt)
    | login dto now => rfl
    | findById i => rfl
    | listAll => rfl
    | updateRole userId newRole now =>
        simp only [stepStore, updateUserRole]
        by_cases hid : (userId == "") = true
        · rw [if_pos hid]
        · rw [if_neg hid]
          cases hr : parseRole newRole with
          | none => rfl
          | some r =>
              simp only []
              cases hu : updateAt users userId r now with
              | none => rfl
              | some p =>
                  rcases p with ⟨v, us2⟩
                  exact updateAt_emails hu

/-- C5 witness: a concrete two-registration run has duplicate-free
emails, and a concrete non-register operation leaves the email list
unchanged. -/
theorem store_emails_unique_witness :
    (((runOps 0 0 [.register dtoA 5 0, .register dtoB 5 0]).map User.email).Nodup) ∧
    ((stepStore 0 0 [sampleUser1] (.updateRole "1" "owner" 7)).map User.email =
      [sampleUser1].map User.email) :=
  ⟨(store_emails_unique 0 0).1 [.register dtoA 5 0, .register dtoB 5 0],
   (store_emails_unique 0 0).2 [sampleUser1] (.updateRole "1" "owner" 7)
     (fun _ _ _ h => Op.noConfusion h)⟩

/-- C6: for every salt and plaintexts, `verify(p, hash(p))` is true,
and for distinct plaintexts `verify(p, hash(q))` is false (a returned
Boolean, not an exception). -/
theorem bcrypt_roundtrip_and_mismatch (salt : Nat) (p q : String) :
    bcryptCompare p (bcryptHash salt p) = true ∧
    (p ≠ q → bcryptCompare p (bcryptHash salt q) = false) := by
  constructor
  · simp [bcryptCompare, bcryptHash]
  · intro h
    simp only [bcryptCompare, bcryptHash, beq_eq_false_iff_ne, ne_eq]
    exact fun hc => h hc.symm

/-- C6 witness: concrete round-trip success and concrete mismatch
returning false. -/
theorem bcrypt_roundtrip_and_mismatch_witness :
    bcryptCompare "secret1" (bcryptHash 0 "secret1") = true ∧
    bcryptCompare "secret1" (bcryptHash 0 "secret2") = false :=
  ⟨(bcrypt_roundtrip_and_mismatch 0 "secret1" "secret2").1,
   (bcrypt_roundtrip_and_mismatch 0 "secret1" "secret2").2 (by decide)⟩

/-- C7: `authorize` allows exactly when the required-role set is empty
or the identity's role is a member; a deny surfaces as kind
`Forbidden`, which is a different kind from `Unauthorized`. -/
theorem authorize_iff_and_forbidden (role : UserRole) (rs : List UserRole) :
    (authorize role rs = true ↔ (rs = [] ∨ role ∈ rs)) ∧
    (authorize role rs = false →
      authorizeResult role rs = .error { kind := .forbidden, message := "Access denied" } ∧
      errKind (authorizeResult role rs) ≠ some ErrorKind.unauthorized) := by
  constructor
  · simp [authorize]
  · intro h
    constructor
    · simp [authorizeResult, h]
    · simp [authorizeResult, h, errKind]

/-- C7 witness: the empty set allows a viewer; requiring owner denies a
viewer with kind `Forbidden`, not `Unauthorized`. -/
theorem authorize_iff_and_forbidden_witness :
    (authorize UserRole.viewer [] = true) ∧
    (authorizeResult UserRole.viewer [UserRole.owner] =
      .error { kind := .forbidden, message := "Access denied" } ∧
     errKind (authorizeResult UserRole.viewer [UserRole.owner]) ≠
      some ErrorKind.unauthorized) :=
  ⟨(authorize_iff_and_forbidden UserRole.viewer []).1.mpr (Or.inl rfl),
   (authorize_iff_and_forbidden UserRole.viewer [UserRole.owner]).2 (by decide)⟩

/-- C8: a token produced by `generateToken` for an account passes
verification at every time strictly before its `expiresAt`, yielding
the identity and role snapshot taken at issuance, and fails with
`Unauthorized` at every time at or after `expiresAt`. -/
theorem token_validity_window (secret : Nat) (acct : User) (now ttl t : Nat) :
    (t < (generateToken secret acct now ttl).expiresAt →
      verifyToken secret (generateToken secret acct now ttl) t =
        .ok { sub := acct.id, email := acct.email, role := acct.role }) ∧
    ((generateToken secret acct now ttl).expiresAt ≤ t →
      verifyToken secret (generateToken secret acct now ttl) t =
        .error { kind := .unauthorized, message := "Invalid or expired token" }) := by
  constructor
  · intro h
    have h2 : t < now + ttl := by simpa [generateToken, signToken] using h
    simp [verifyToken, generateToken, signToken, h2]
  · intro h
    have h2 : ¬ t < now + ttl := by
      simpa [generateToken, signToken] using Nat.not_lt.mpr h
    simp [verifyToken, generateToken, signToken, h2]

/-- C8 witness: a token issued at time 5 with TTL 10 verifies at time 6
to the account's snapshot and fails at time 15. -/
theorem token_validity_window_witness :
    (verifyToken 0 (generateToken 0 sampleUser1 5 10) 6 =
      .ok { sub := sampleUser1.id, email := sampleUser1.email, role := sampleUser1.role }) ∧
    (verifyToken 0 (generateToken 0 sampleUser1 5 10) 15 =
      .error { kind := .unauthorized, message := "Invalid or expired token" }) :=
  ⟨(token_validity_window 0 sampleUser1 5 10 6).1 (by decide),
   (token_validity_window 0 sampleUser1 5 10 15).2 (by decide)⟩

/-- C9: id assignment is `Date.now().toString()`, so two registrations
with distinct emails in the same millisecond both succeed yet receive
the same id — uniqueness of stored ids fails at this concrete input. -/
theorem same_millisecond_registrations_share_id :
    ((register [] dtoA 5 0 0 0).1.isOk = true) ∧
    ((register (register [] dtoA 5 0 0 0).2 dtoB 5 0 0 0).1.isOk = true) ∧
    ((runOps 0 0 [.register dtoA 5 0, .register dtoB 5 0]).map User.id = ["5", "5"]) ∧
    ¬ ((runOps 0 0 [.register dtoA 5 0, .register dtoB 5 0]).map User.id).Nodup := by
  refine ⟨by decide, by decide, by decide, by decide⟩

end CollabAuth
